import Mathlib

/-!
Shallow embedding of the KiForge geometry-transform / layer-registry core.

Geometry side (crates/copperforge-core/src/ui/tabs.rs): the per-frame renderer
maps raw DRC geometry points to display space by rotating about the local
origin, mirroring, and translating by `center_offset - design_offset`.
Floating-point `f64` coordinates are modelled as real numbers; the `f64`
trigonometric calls are modelled by `Real.cos` / `Real.sin`.

Registry side (src/layer_operations/manager.rs): `LayerManager` is modelled
with its `HashMap` fields as functions into `Option`, its `Vec` as a `List`,
and `std::time::Instant` as a natural-number timestamp (nanoseconds) supplied
explicitly (`now`) wherever the code calls `Instant::now()` or
`Instant::elapsed`.

The rotate-button arithmetic (`(rotation_degrees + 90.0) % 360.0` in
`render_transform_controls`) is modelled over `ℚ` with Rust's truncating
`%` on `f64` made explicit, so the wrap-around facts are decidable on
concrete inputs.
-/

namespace KiForge

/-- 2D point with `f64` coordinates, modelled over `ℝ`
(`Position` from the gerber-viewer geometry types used by `tabs.rs`). -/
structure Position where
  x : ℝ
  y : ℝ

/-- `Position::invert_x`: negate the X component (used for X mirroring). -/
def Position.invert_x (p : Position) : Position := ⟨-p.x, p.y⟩

/-- `Position::invert_y`: negate the Y component (used for Y mirroring). -/
def Position.invert_y (p : Position) : Position := ⟨p.x, -p.y⟩

/-- Componentwise addition (`Position + Position` in the renderer). -/
def Position.add (p q : Position) : Position := ⟨p.x + q.x, p.y + q.y⟩

/-- Componentwise subtraction (`Vector2 - Vector2` in the renderer). -/
def Position.sub (p q : Position) : Position := ⟨p.x - q.x, p.y - q.y⟩

/-- Mirroring flags of the display manager (`mirroring.x` / `mirroring.y`). -/
structure Mirroring where
  x : Bool
  y : Bool
  deriving DecidableEq

/-- The view state read by the renderer: `app.rotation_degrees` plus the
display manager's mirroring flags and offsets. -/
structure DisplayState where
  rotation_degrees : ℝ
  mirroring : Mirroring
  center_offset : Position
  design_offset : Position

/-- Rotation about the local origin by an angle in degrees:
`rotation_radians = deg.to_radians()`,
`x' = x*cos θ - y*sin θ`, `y' = x*sin θ + y*cos θ`
(the code in `render_corner_overlays` / `render_drc_violations`). -/
noncomputable def rotateByDegrees (deg : ℝ) (p : Position) : Position :=
  let θ := deg * Real.pi / 180
  ⟨p.x * Real.cos θ - p.y * Real.sin θ, p.x * Real.sin θ + p.y * Real.cos θ⟩

/-- The body of `render_drc_violations` (tabs.rs:807-841) mapping one raw
violation position to its display-space position: rotation is applied only
under the guard `rotation_degrees != 0.0`, then X/Y mirroring, then the
offset `center_offset - design_offset` is added. -/
noncomputable def transformDrcViolationPos (s : DisplayState) (p : Position) : Position :=
  let p1 := if s.rotation_degrees ≠ 0 then rotateByDegrees s.rotation_degrees p else p
  let p2 := if s.mirroring.x then p1.invert_x else p1
  let p3 := if s.mirroring.y then p2.invert_y else p2
  p3.add (s.center_offset.sub s.design_offset)

/-- The inner loop of `render_corner_overlays` (tabs.rs:760-805) mapping one
corner-overlay vertex to its display-space position: same guarded rotation,
then mirroring, then the `center_offset - design_offset` translation. -/
noncomputable def transformCornerVertex (s : DisplayState) (p : Position) : Position :=
  let vertex1 := if s.rotation_degrees ≠ 0 then rotateByDegrees s.rotation_degrees p else p
  let vertex2 := if s.mirroring.x then vertex1.invert_x else vertex1
  let vertex3 := if s.mirroring.y then vertex2.invert_y else vertex2
  vertex3.add (s.center_offset.sub s.design_offset)

/-- The fixed-order pipeline as the spec states it: unconditionally rotate by
`rotation_degrees`, then mirror, then add `center_offset - design_offset`. -/
noncomputable def rotateMirrorTranslate (s : DisplayState) (p : Position) : Position :=
  let p1 := rotateByDegrees s.rotation_degrees p
  let p2 := if s.mirroring.x then p1.invert_x else p1
  let p3 := if s.mirroring.y then p2.invert_y else p2
  p3.add (s.center_offset.sub s.design_offset)

/-- `render_cursor_info` (tabs.rs:1058-1086): the canonical coordinate shown
for a cursor position already converted to gerber space is
`gerber_pos - design_offset` componentwise; the code applies no rotation or
mirroring stage and does not involve `center_offset`. -/
noncomputable def cursorReadout (s : DisplayState) (gerber_pos : Position) : Position :=
  ⟨gerber_pos.x - s.design_offset.x, gerber_pos.y - s.design_offset.y⟩

/-- Follows the spec's words (§4.2): `toCanonical` is the exact inverse of
the rotate → mirror → translate pipeline — subtract the effective
translation, undo the mirroring, then rotate back by the negated angle. -/
noncomputable def specInverseToCanonical (s : DisplayState) (q : Position) : Position :=
  let u3 := q.sub (s.center_offset.sub s.design_offset)
  let u2 := if s.mirroring.y then u3.invert_y else u3
  let u1 := if s.mirroring.x then u2.invert_x else u2
  rotateByDegrees (-s.rotation_degrees) u1

/-- Side of the board. Modelled from the spec: the `LayerType` payloads live
in `layer_operations/types.rs`, which is not among the inspected sources;
the spec's data model gives silkscreen/soldermask/paste a Top/Bottom side. -/
inductive Side where
  | top
  | bottom
  deriving DecidableEq

/-- Layer identity. Modelled from the spec (`layer_operations/types.rs` is
not among the inspected sources): copper plus per-side silkscreen,
soldermask and paste, and the mechanical outline; the variant names
`TopCopper` and `MechanicalOutline` appear directly in `manager.rs`. -/
inductive LayerType where
  | topCopper
  | bottomCopper
  | silkscreen (side : Side)
  | soldermask (side : Side)
  | paste (side : Side)
  | mechanicalOutline
  deriving DecidableEq

/-- Per-layer record. Modelled from the spec (`LayerInfo` is defined in
`layer_operations/types.rs`, not among the inspected sources): a visibility
flag (read and written directly by `manager.rs`), an optional geometry
handle (`gerber_layer`, read by `get_mechanical_outline_centroid`), and
cached display coordinates. -/
structure LayerInfo where
  visible : Bool
  gerber_layer : Option String
  coordinates_x : ℚ
  coordinates_y : ℚ
  deriving DecidableEq

/-- An imported gerber file awaiting manual assignment. Modelled from the
spec (`detection.rs` is not among the inspected sources): raw content plus
its source filename. -/
structure UnassignedGerber where
  filename : String
  content : String
  deriving DecidableEq

/-- `LayerManager` (manager.rs:8-29). `HashMap` fields are modelled as
functions into `Option`; the stateless `LayerDetector` (constructed with no
arguments everywhere it appears) is modelled as `Unit`; `Instant` is a
natural-number timestamp in nanoseconds. -/
structure LayerManager where
  layers : LayerType → Option LayerInfo
  active_layer : LayerType
  layer_detector : Unit
  unassigned_gerbers : List UnassignedGerber
  layer_assignments : String → Option LayerType
  coordinates_last_updated : ℕ
  coordinates_dirty : Bool

/-- `LayerManager::new` (manager.rs:33-43); `now` stands for the
`Instant::now()` call. -/
def LayerManager.new (now : ℕ) : LayerManager :=
  ⟨fun _ => none, LayerType.topCopper, (), [], fun _ => none, now, false⟩

/-- `add_layer` (manager.rs:46-48): `HashMap::insert`. -/
def LayerManager.add_layer (m : LayerManager) (t : LayerType) (info : LayerInfo) :
    LayerManager :=
  { m with layers := fun k => if k = t then some info else m.layers k }

/-- `remove_layer` (manager.rs:51-53): `HashMap::remove`, returning the
removed record (if any) together with the updated manager. -/
def LayerManager.remove_layer (m : LayerManager) (t : LayerType) :
    Option LayerInfo × LayerManager :=
  (m.layers t, { m with layers := fun k => if k = t then none else m.layers k })

/-- `get_layer` (manager.rs:56-58): `HashMap::get`. -/
def LayerManager.get_layer (m : LayerManager) (t : LayerType) : Option LayerInfo :=
  m.layers t

/-- `set_active_layer` (manager.rs:66-68). -/
def LayerManager.set_active_layer (m : LayerManager) (t : LayerType) : LayerManager :=
  { m with active_layer := t }

/-- `add_unassigned_gerber` (manager.rs:83-85): `Vec::push`. -/
def LayerManager.add_unassigned_gerber (m : LayerManager) (g : UnassignedGerber) :
    LayerManager :=
  { m with unassigned_gerbers := m.unassigned_gerbers ++ [g] }

/-- `remove_unassigned_gerber` (manager.rs:88-94): returns
`Some(vec.remove(index))` when `index < len`, else `None`, leaving the list
untouched. -/
def LayerManager.remove_unassigned_gerber (m : LayerManager) (index : ℕ) :
    Option UnassignedGerber × LayerManager :=
  if h : index < m.unassigned_gerbers.length then
    (some (m.unassigned_gerbers.get ⟨index, h⟩),
     { m with unassigned_gerbers := m.unassigned_gerbers.eraseIdx index })
  else
    (none, m)

/-- `assign_layer` (manager.rs:97-99): `HashMap::insert`. -/
def LayerManager.assign_layer (m : LayerManager) (filename : String) (t : LayerType) :
    LayerManager :=
  { m with layer_assignments := fun k => if k = filename then some t else m.layer_assignments k }

/-- `remove_assignment` (manager.rs:102-104): `HashMap::remove`. -/
def LayerManager.remove_assignment (m : LayerManager) (filename : String) :
    Option LayerType × LayerManager :=
  (m.layer_assignments filename,
   { m with layer_assignments := fun k => if k = filename then none else m.layer_assignments k })

/-- `get_assignment` (manager.rs:107-109): `HashMap::get`. -/
def LayerManager.get_assignment (m : LayerManager) (filename : String) : Option LayerType :=
  m.layer_assignments filename

/-- `toggle_layer_visibility` (manager.rs:124-128): flip the record's
`visible` flag when the role is present, otherwise do nothing. -/
def LayerManager.toggle_layer_visibility (m : LayerManager) (t : LayerType) : LayerManager :=
  match m.layers t with
  | some info =>
      { m with layers := fun k =>
          if k = t then some { info with visible := !info.visible } else m.layers k }
  | none => m

/-- `set_layer_visibility` (manager.rs:131-135): set the record's `visible`
flag when the role is present, otherwise do nothing. -/
def LayerManager.set_layer_visibility (m : LayerManager) (t : LayerType) (visible : Bool) :
    LayerManager :=
  match m.layers t with
  | some info =>
      { m with layers := fun k =>
          if k = t then some { info with visible := visible } else m.layers k }
  | none => m

/-- `mark_coordinates_dirty` (manager.rs:171-173). -/
def LayerManager.mark_coordinates_dirty (m : LayerManager) : LayerManager :=
  { m with coordinates_dirty := true }

/-- `mark_coordinates_updated` (manager.rs:176-179); `now` stands for the
`Instant::now()` call. -/
def LayerManager.mark_coordinates_updated (m : LayerManager) (now : ℕ) : LayerManager :=
  { m with coordinates_dirty := false, coordinates_last_updated := now }

/-- `Duration::from_secs(2)` in nanoseconds. -/
def twoSecondsNs : ℕ := 2000000000

/-- `coordinates_need_update` (manager.rs:182-185): dirty, or more than two
seconds elapsed since the last update (`now` stands for the implicit
`Instant::elapsed` reference point). -/
def LayerManager.coordinates_need_update (m : LayerManager) (now : ℕ) : Bool :=
  m.coordinates_dirty || decide (twoSecondsNs < now - m.coordinates_last_updated)

/-- `update_coordinates_from_display` (manager.rs:189-199): early-return
unless an update is needed; otherwise let the positioning collaborator
(`display_manager.update_layer_positions`, external code modelled as the
function argument `upd`) recompute the cached display coordinates, then mark
updated. -/
def LayerManager.update_coordinates_from_display (m : LayerManager)
    (upd : (LayerType → Option LayerInfo) → (LayerType → Option LayerInfo)) (now : ℕ) :
    LayerManager :=
  if m.coordinates_need_update now then
    LayerManager.mark_coordinates_updated { m with layers := upd m.layers } now
  else
    m

/-- The persisted shape of a `LayerManager` (manager.rs:228-232 and the
`Serialize` impl, manager.rs:248-260): exactly the `active_layer` and
`layer_assignments` fields. -/
structure LayerManagerData where
  active_layer : LayerType
  layer_assignments : String → Option LayerType

/-- `Serialize for LayerManager` (manager.rs:248-260): serialize a struct of
exactly two fields, `active_layer` and `layer_assignments`. -/
def LayerManager.serialize (m : LayerManager) : LayerManagerData :=
  ⟨m.active_layer, m.layer_assignments⟩

/-- A persisted record as found in the input: each field of
`LayerManagerData` is either present or missing. -/
structure PersistedLayerManager where
  active_layer : Option LayerType
  layer_assignments : Option (String → Option LayerType)

/-- The derived deserializer of `LayerManagerData` (manager.rs:228-232):
`#[derive(serde::Deserialize)]` with no `#[serde(default)]`, so a missing
field is an error, never defaulted. -/
def LayerManagerData.deserializeFrom (p : PersistedLayerManager) :
    Except String LayerManagerData :=
  match p.active_layer with
  | none => Except.error "missing field active_layer"
  | some a =>
      match p.layer_assignments with
      | none => Except.error "missing field layer_assignments"
      | some l => Except.ok ⟨a, l⟩

/-- The body of `Deserialize for LayerManager` (manager.rs:236-244): rebuild
the manager from the persisted data with empty layers, a fresh detector, no
unassigned gerbers, a fresh timestamp, and the dirty flag set. -/
def LayerManager.fromData (now : ℕ) (data : LayerManagerData) : LayerManager :=
  ⟨fun _ => none, data.active_layer, (), [], data.layer_assignments, now, true⟩

/-- `Deserialize for LayerManager` (manager.rs:223-246): deserialize the
two-field record, then rebuild the runtime manager. -/
def LayerManager.deserialize (now : ℕ) (p : PersistedLayerManager) :
    Except String LayerManager :=
  (LayerManagerData.deserializeFrom p).map (LayerManager.fromData now)

/-- Rust's `%` on `f64` (truncating remainder), modelled over `ℚ`:
`a - b * trunc(a / b)`. -/
def rust_f64_rem (a b : ℚ) : ℚ :=
  a - b * (if 0 ≤ a / b then ((⌊a / b⌋ : ℤ) : ℚ) else ((⌈a / b⌉ : ℤ) : ℚ))

/-- One activation of the Rotate control (tabs.rs:238-239):
`rotation_degrees = (rotation_degrees + 90.0) % 360.0`. -/
def rotate_button_press (r : ℚ) : ℚ :=
  rust_f64_rem (r + 90) 360

end KiForge

namespace KiForge

/-! ### Helper lemmas -/

/-- Rotating by 0 degrees is the identity. -/
theorem rotateByDegrees_zero (p : Position) : rotateByDegrees 0 p = p := by
  simp [rotateByDegrees]

/-- X mirroring is involutive. -/
theorem Position.invert_x_invert_x (p : Position) : p.invert_x.invert_x = p := by
  cases p; simp [Position.invert_x]

/-- Y mirroring is involutive. -/
theorem Position.invert_y_invert_y (p : Position) : p.invert_y.invert_y = p := by
  cases p; simp [Position.invert_y]

/-- Subtracting then adding the same offset is the identity. -/
theorem Position.sub_add (p t : Position) : (p.sub t).add t = p := by
  cases p; cases t; simp [Position.sub, Position.add]

/-- Rotating by `-deg` then by `deg` is the identity (cos² + sin² = 1). -/
theorem rotateByDegrees_neg_left (deg : ℝ) (p : Position) :
    rotateByDegrees deg (rotateByDegrees (-deg) p) = p := by
  obtain ⟨x, y⟩ := p
  have h : -deg * Real.pi / 180 = -(deg * Real.pi / 180) := by ring
  have hsc := Real.sin_sq_add_cos_sq (deg * Real.pi / 180)
  simp only [rotateByDegrees, h, Real.cos_neg, Real.sin_neg, Position.mk.injEq]
  constructor
  · linear_combination x * hsc
  · linear_combination y * hsc

/-- The spec's inverse really inverts the fixed-order pipeline. -/
theorem rotateMirrorTranslate_leftInverse (s : DisplayState) (q : Position) :
    rotateMirrorTranslate s (specInverseToCanonical s q) = q := by
  simp only [rotateMirrorTranslate, specInverseToCanonical, rotateByDegrees_neg_left]
  cases hx : s.mirroring.x <;> cases hy : s.mirroring.y <;>
    simp [hx, hy, Position.invert_x_invert_x, Position.invert_y_invert_y, Position.sub_add]

/-- A press that stays under the wrap point adds 90. -/
theorem rotate_button_press_no_wrap (r : ℚ) (h0 : 0 ≤ r) (h1 : r < 270) :
    rotate_button_press r = r + 90 := by
  have hq : (0 : ℚ) ≤ (r + 90) / 360 := by positivity
  have hfloor : ⌊(r + 90) / 360⌋ = 0 := by
    rw [Int.floor_eq_zero_iff]
    constructor
    · exact hq
    · rw [div_lt_one (by norm_num)]
      linarith
  simp only [rotate_button_press, rust_f64_rem, if_pos hq, hfloor]
  push_cast
  ring

/-- A press from the top quarter wraps: it subtracts 270. -/
theorem rotate_button_press_wrap (r : ℚ) (h0 : 270 ≤ r) (h1 : r < 360) :
    rotate_button_press r = r - 270 := by
  have hq : (0 : ℚ) ≤ (r + 90) / 360 := by positivity
  have hfloor : ⌊(r + 90) / 360⌋ = 1 := by
    rw [Int.floor_eq_iff]
    constructor
    · rw [le_div_iff₀ (by norm_num)]
      push_cast
      linarith
    · rw [div_lt_iff₀ (by norm_num)]
      push_cast
      linarith
  simp only [rotate_button_press, rust_f64_rem, if_pos hq, hfloor]
  push_cast
  ring

/-! ### Claim theorems -/

/-- C1: both renderer mappings (DRC violation markers and corner-overlay
vertices) equal the fixed-order rotate → mirror → translate pipeline with
effective translation `center_offset - design_offset`; in particular they
are the same function of the raw point and the view state. -/
theorem drc_and_overlay_use_fixed_pipeline (s : DisplayState) (p : Position) :
    transformDrcViolationPos s p = rotateMirrorTranslate s p ∧
    transformCornerVertex s p = rotateMirrorTranslate s p := by
  constructor <;>
  · by_cases h : s.rotation_degrees = 0
    · simp [transformDrcViolationPos, transformCornerVertex, rotateMirrorTranslate, h,
        rotateByDegrees_zero]
    · simp [transformDrcViolationPos, transformCornerVertex, rotateMirrorTranslate, h]

/-- C2 counterexample: with rotation = 90°, no mirroring and zero offsets,
the cursor readout of display point (1, 0) differs from the inverse of the
full rotate → mirror → translate pipeline at that point, so the cursor
readout does not apply the identical pipeline. -/
theorem cursorReadout_not_pipeline_inverse :
    cursorReadout ⟨90, ⟨false, false⟩, ⟨0, 0⟩, ⟨0, 0⟩⟩ ⟨1, 0⟩ ≠
    specInverseToCanonical ⟨90, ⟨false, false⟩, ⟨0, 0⟩, ⟨0, 0⟩⟩ ⟨1, 0⟩ := by
  have hangle : (-(90 * Real.pi) / 180 : ℝ) = -(Real.pi / 2) := by ring
  intro h
  have hx := congrArg Position.x h
  simp [cursorReadout, specInverseToCanonical, rotateByDegrees, Position.sub, hangle,
    Real.cos_neg, Real.sin_neg, Real.cos_pi_div_two, Real.sin_pi_div_two] at hx

/-- C2 (amended): the cursor readout is the pure translation
`gerber_pos - design_offset` — it skips the rotate and mirror stages, and
even its translation has the opposite sign from the pipeline's effective
translation `center_offset - design_offset` — so it agrees with the
inverse of the full pipeline only in the degenerate view (rotation 0, no
mirroring, both offsets zero). -/
theorem cursorReadout_translation_only (s : DisplayState) (q : Position) :
    cursorReadout s q = ⟨q.x - s.design_offset.x, q.y - s.design_offset.y⟩ ∧
    (s.rotation_degrees = 0 → s.mirroring = ⟨false, false⟩ → s.center_offset = ⟨0, 0⟩ →
      s.design_offset = ⟨0, 0⟩ → cursorReadout s q = specInverseToCanonical s q) := by
  refine ⟨rfl, fun hrot hmir hc hd => ?_⟩
  have h0 : -s.rotation_degrees = 0 := by rw [hrot]; ring
  cases q
  simp [cursorReadout, specInverseToCanonical, hmir, hc, hd, h0, rotateByDegrees_zero,
    Position.sub]

/-- C2 witness: the amended agreement instantiated at a concrete
degenerate view state and point. -/
theorem cursorReadout_translation_only_witness :
    cursorReadout ⟨0, ⟨false, false⟩, ⟨0, 0⟩, ⟨0, 0⟩⟩ ⟨5, 6⟩ =
    specInverseToCanonical ⟨0, ⟨false, false⟩, ⟨0, 0⟩, ⟨0, 0⟩⟩ ⟨5, 6⟩ :=
  (cursorReadout_translation_only ⟨0, ⟨false, false⟩, ⟨0, 0⟩, ⟨0, 0⟩⟩ ⟨5, 6⟩).2
    rfl rfl rfl rfl

/-- C3: `update_coordinates_from_display` is a no-op when no update is
needed; otherwise it hands the layers map to the positioning collaborator,
equals the collaborator step followed by `mark_coordinates_updated`, clears
the dirty flag, stamps the timestamp, and afterwards
`coordinates_need_update` is false. -/
theorem update_coordinates_from_display_spec (m : LayerManager)
    (upd : (LayerType → Option LayerInfo) → (LayerType → Option LayerInfo)) (now : ℕ) :
    (m.coordinates_need_update now = false → m.update_coordinates_from_display upd now = m) ∧
    (m.coordinates_need_update now = true →
      m.update_coordinates_from_display upd now =
        LayerManager.mark_coordinates_updated { m with layers := upd m.layers } now ∧
      (m.update_coordinates_from_display upd now).coordinates_dirty = false ∧
      (m.update_coordinates_from_display upd now).coordinates_last_updated = now ∧
      (m.update_coordinates_from_display upd now).coordinates_need_update now = false) := by
  constructor
  · intro h
    simp [LayerManager.update_coordinates_from_display, h]
  · intro h
    have hif : m.update_coordinates_from_display upd now =
        LayerManager.mark_coordinates_updated { m with layers := upd m.layers } now := by
      unfold LayerManager.update_coordinates_from_display
      rw [h]
      simp
    refine ⟨hif, ?_, ?_, ?_⟩ <;> rw [hif] <;>
      simp [LayerManager.mark_coordinates_updated, LayerManager.coordinates_need_update,
        Nat.sub_self, twoSecondsNs]

/-- C3 witness: a fresh manager is untouched, and after a forced update the
freshness check is satisfied. -/
theorem update_coordinates_from_display_witness :
    (LayerManager.new 5).update_coordinates_from_display id 5 = LayerManager.new 5 ∧
    (((LayerManager.new 0).mark_coordinates_dirty).update_coordinates_from_display
        id 0).coordinates_need_update 0 = false :=
  ⟨(update_coordinates_from_display_spec (LayerManager.new 5) id 5).1 (by decide),
   ((update_coordinates_from_display_spec
      ((LayerManager.new 0).mark_coordinates_dirty) id 0).2 (by decide)).2.2.2⟩

/-- C4: `mark_coordinates_dirty` sets the dirty flag, changes no other
field, is idempotent, and afterwards `coordinates_need_update` is true at
every time. -/
theorem mark_coordinates_dirty_spec (m : LayerManager) :
    m.mark_coordinates_dirty.coordinates_dirty = true ∧
    m.mark_coordinates_dirty.layers = m.layers ∧
    m.mark_coordinates_dirty.active_layer = m.active_layer ∧
    m.mark_coordinates_dirty.unassigned_gerbers = m.unassigned_gerbers ∧
    m.mark_coordinates_dirty.layer_assignments = m.layer_assignments ∧
    m.mark_coordinates_dirty.coordinates_last_updated = m.coordinates_last_updated ∧
    m.mark_coordinates_dirty.mark_coordinates_dirty = m.mark_coordinates_dirty ∧
    ∀ now : ℕ, m.mark_coordinates_dirty.coordinates_need_update now = true := by
  refine ⟨rfl, rfl, rfl, rfl, rfl, rfl, rfl, fun now => ?_⟩
  simp [LayerManager.mark_coordinates_dirty, LayerManager.coordinates_need_update]

/-- C5: the persisted shape is exactly `active_layer` and
`layer_assignments`; deserializing any persisted record yields empty
layers, an empty unassigned list, a set dirty flag, and the persisted
active layer and assignment table. -/
theorem persisted_state_shape (m : LayerManager) (data : LayerManagerData) (now : ℕ) :
    m.serialize = ⟨m.active_layer, m.layer_assignments⟩ ∧
    LayerManager.deserialize now ⟨some data.active_layer, some data.layer_assignments⟩ =
      Except.ok (LayerManager.fromData now data) ∧
    (LayerManager.fromData now data).layers = (fun _ => none) ∧
    (LayerManager.fromData now data).unassigned_gerbers = [] ∧
    (LayerManager.fromData now data).coordinates_dirty = true ∧
    (LayerManager.fromData now (m.serialize)).active_layer = m.active_layer ∧
    (LayerManager.fromData now (m.serialize)).layer_assignments = m.layer_assignments :=
  ⟨rfl, rfl, rfl, rfl, rfl, rfl, rfl⟩

/-- C6 counterexample: a persisted record with both optional fields missing
fails to deserialize with a missing-field error instead of defaulting. -/
theorem deserialize_missing_field_errors :
    LayerManager.deserialize 0 ⟨none, none⟩ =
      Except.error "missing field active_layer" := rfl

/-- C6 (amended): the derived deserializer has no field defaults — a record
missing `active_layer` or `layer_assignments` fails with a missing-field
error — while every successful load does force the dirty flag. -/
theorem deserialize_requires_fields (now : ℕ) (p : PersistedLayerManager) :
    (p.active_layer = none ∨ p.layer_assignments = none →
      ∃ e, LayerManager.deserialize now p = Except.error e) ∧
    (∀ m, LayerManager.deserialize now p = Except.ok m → m.coordinates_dirty = true) := by
  obtain ⟨oa, ol⟩ := p
  constructor
  · rintro (h | h)
    · subst h
      exact ⟨"missing field active_layer", rfl⟩
    · subst h
      cases oa with
      | none => exact ⟨"missing field active_layer", rfl⟩
      | some a => exact ⟨"missing field layer_assignments", rfl⟩
  · intro m hm
    cases oa with
    | none =>
        simp [LayerManager.deserialize, LayerManagerData.deserializeFrom, Except.map] at hm
    | some a =>
        cases ol with
        | none =>
            simp [LayerManager.deserialize, LayerManagerData.deserializeFrom,
              Except.map] at hm
        | some l =>
            simp [LayerManager.deserialize, LayerManagerData.deserializeFrom,
              Except.map] at hm
            rw [← hm]
            rfl

/-- C6 witness: one missing-field failure and one successful load with the
dirty flag forced. -/
theorem deserialize_requires_fields_witness :
    (∃ e, LayerManager.deserialize 0 ⟨none, some (fun _ => none)⟩ = Except.error e) ∧
    (LayerManager.fromData 0 ⟨LayerType.topCopper, fun _ => none⟩).coordinates_dirty
      = true :=
  ⟨(deserialize_requires_fields 0 ⟨none, some (fun _ => none)⟩).1 (Or.inl rfl),
   (deserialize_requires_fields 0 ⟨some LayerType.topCopper, some (fun _ => none)⟩).2
     (LayerManager.fromData 0 ⟨LayerType.topCopper, fun _ => none⟩) rfl⟩

/-- C7: `add_layer` makes `get_layer` return the inserted record, a second
insert under the same role replaces it, `remove_layer` hands back the
record that was present (or `none`) and afterwards `get_layer` is `none`. -/
theorem registry_add_get_remove (m : LayerManager) (t : LayerType) (r r2 : LayerInfo) :
    (m.add_layer t r).get_layer t = some r ∧
    ((m.add_layer t r).add_layer t r2).get_layer t = some r2 ∧
    ((m.add_layer t r).remove_layer t).1 = some r ∧
    ((m.remove_layer t).2).get_layer t = none ∧
    (m.remove_layer t).1 = m.get_layer t := by
  simp [LayerManager.add_layer, LayerManager.remove_layer, LayerManager.get_layer]

/-- C8: the lookup/removal operations are total: an absent role leaves
`remove_layer` returning `none` with the manager unchanged, an absent
filename makes `get_assignment` return `none`, and an out-of-range index
leaves `remove_unassigned_gerber` returning `none` with the manager
unchanged. -/
theorem absent_access_returns_none (m : LayerManager) (t : LayerType)
    (filename : String) (i : ℕ) :
    (m.get_layer t = none → m.remove_layer t = (none, m)) ∧
    (m.layer_assignments filename = none → m.get_assignment filename = none) ∧
    (m.unassigned_gerbers.length ≤ i → m.remove_unassigned_gerber i = (none, m)) := by
  refine ⟨fun h => ?_, fun h => h, fun h => ?_⟩
  · simp only [LayerManager.get_layer] at h
    have hL : (fun k => if k = t then none else m.layers k) = m.layers := by
      funext k
      by_cases hk : k = t
      · subst hk; simp [h]
      · simp [hk]
    simp only [LayerManager.remove_layer, hL, h]
  · simp only [LayerManager.remove_unassigned_gerber]
    rw [dif_neg (by omega)]

/-- C8 witness: absent role and out-of-range index on a fresh manager. -/
theorem absent_access_returns_none_witness :
    (LayerManager.new 0).remove_layer LayerType.topCopper = (none, LayerManager.new 0) ∧
    (LayerManager.new 0).remove_unassigned_gerber 3 = (none, LayerManager.new 0) :=
  ⟨(absent_access_returns_none (LayerManager.new 0) LayerType.topCopper "a" 3).1 rfl,
   (absent_access_returns_none (LayerManager.new 0) LayerType.topCopper "a" 3).2.2
     (by decide)⟩

/-- C9: one Rotate press maps `rotation_degrees` to
`(rotation_degrees + 90) % 360`; starting inside `[0, 360)` it stays inside
`[0, 360)`, and four consecutive presses return to the start. -/
theorem rotation_wraps_mod_360 (r : ℚ) (h0 : 0 ≤ r) (h1 : r < 360) :
    (0 ≤ rotate_button_press r ∧ rotate_button_press r < 360) ∧
    rotate_button_press (rotate_button_press (rotate_button_press
      (rotate_button_press r))) = r := by
  constructor
  · rcases lt_or_le r 270 with h | h
    · rw [rotate_button_press_no_wrap r h0 h]
      constructor <;> linarith
    · rw [rotate_button_press_wrap r h h1]
      constructor <;> linarith
  · rcases lt_or_le r 90 with hA | hA
    · rw [rotate_button_press_no_wrap r h0 (by linarith),
        rotate_button_press_no_wrap (r + 90) (by linarith) (by linarith),
        rotate_button_press_no_wrap (r + 90 + 90) (by linarith) (by linarith),
        rotate_button_press_wrap (r + 90 + 90 + 90) (by linarith) (by linarith)]
      ring
    · rcases lt_or_le r 180 with hB | hB
      · rw [rotate_button_press_no_wrap r h0 (by linarith),
          rotate_button_press_no_wrap (r + 90) (by linarith) (by linarith),
          rotate_button_press_wrap (r + 90 + 90) (by linarith) (by linarith),
          rotate_button_press_no_wrap (r + 90 + 90 - 270) (by linarith) (by linarith)]
        ring
      · rcases lt_or_le r 270 with hC | hC
        · rw [rotate_button_press_no_wrap r h0 (by linarith),
            rotate_button_press_wrap (r + 90) (by linarith) (by linarith),
            rotate_button_press_no_wrap (r + 90 - 270) (by linarith) (by linarith),
            rotate_button_press_no_wrap (r + 90 - 270 + 90) (by linarith) (by linarith)]
          ring
        · rw [rotate_button_press_wrap r hC h1,
            rotate_button_press_no_wrap (r - 270) (by linarith) (by linarith),
            rotate_button_press_no_wrap (r - 270 + 90) (by linarith) (by linarith),
            rotate_button_press_no_wrap (r - 270 + 90 + 90) (by linarith) (by linarith)]
          ring

/-- C9 witness: the wrap facts at a concrete starting angle. -/
theorem rotation_wraps_mod_360_witness :
    (0 ≤ rotate_button_press 0 ∧ rotate_button_press 0 < 360) ∧
    rotate_button_press (rotate_button_press (rotate_button_press
      (rotate_button_press 0))) = 0 :=
  rotation_wraps_mod_360 0 le_rfl (by norm_num)

/-- C10: visibility toggling/setting for an absent role leaves the whole
manager untouched; for a present role only that record's `visible` flag
changes, with every other record, every other field of the record, and
every other manager field (including freshness state) unchanged. -/
theorem visibility_ops_frame (m : LayerManager) (t : LayerType) :
    (m.get_layer t = none →
      m.toggle_layer_visibility t = m ∧ ∀ b, m.set_layer_visibility t b = m) ∧
    (∀ info, m.get_layer t = some info →
      (m.toggle_layer_visibility t).layers t = some { info with visible := !info.visible } ∧
      (∀ t2, t2 ≠ t → (m.toggle_layer_visibility t).layers t2 = m.layers t2) ∧
      (m.toggle_layer_visibility t).active_layer = m.active_layer ∧
      (m.toggle_layer_visibility t).unassigned_gerbers = m.unassigned_gerbers ∧
      (m.toggle_layer_visibility t).layer_assignments = m.layer_assignments ∧
      (m.toggle_layer_visibility t).coordinates_last_updated = m.coordinates_last_updated ∧
      (m.toggle_layer_visibility t).coordinates_dirty = m.coordinates_dirty ∧
      ∀ b, (m.set_layer_visibility t b).layers t = some { info with visible := b } ∧
        (∀ t2, t2 ≠ t → (m.set_layer_visibility t b).layers t2 = m.layers t2) ∧
        (m.set_layer_visibility t b).coordinates_dirty = m.coordinates_dirty ∧
        (m.set_layer_visibility t b).coordinates_last_updated =
          m.coordinates_last_updated) := by
  constructor
  · intro h
    simp only [LayerManager.get_layer] at h
    constructor
    · unfold LayerManager.toggle_layer_visibility
      rw [h]
    · intro b
      unfold LayerManager.set_layer_visibility
      rw [h]
  · intro info h
    simp only [LayerManager.get_layer] at h
    have he : m.toggle_layer_visibility t =
        { m with layers := fun k =>
            if k = t then some { info with visible := !info.visible } else m.layers k } := by
      unfold LayerManager.toggle_layer_visibility
      rw [h]
    have he2 : ∀ b, m.set_layer_visibility t b =
        { m with layers := fun k =>
            if k = t then some { info with visible := b } else m.layers k } := by
      intro b
      unfold LayerManager.set_layer_visibility
      rw [h]
    refine ⟨by rw [he]; simp, fun t2 ht2 => by rw [he]; simp [ht2],
      by rw [he], by rw [he], by rw [he], by rw [he], by rw [he],
      fun b => ⟨by rw [he2 b]; simp, fun t2 ht2 => by rw [he2 b]; simp [ht2],
        by rw [he2 b], by rw [he2 b]⟩⟩

/-- C10 witness: an absent role is a no-op, and toggling a present role
flips exactly its visibility flag. -/
theorem visibility_ops_frame_witness :
    (LayerManager.new 0).toggle_layer_visibility LayerType.bottomCopper =
      LayerManager.new 0 ∧
    (((LayerManager.new 0).add_layer LayerType.topCopper
        ⟨true, none, 0, 0⟩).toggle_layer_visibility LayerType.topCopper).layers
      LayerType.topCopper = some ⟨false, none, 0, 0⟩ :=
  ⟨((visibility_ops_frame (LayerManager.new 0) LayerType.bottomCopper).1 rfl).1,
   ((visibility_ops_frame ((LayerManager.new 0).add_layer LayerType.topCopper
      ⟨true, none, 0, 0⟩) LayerType.topCopper).2 ⟨true, none, 0, 0⟩ rfl).1⟩

end KiForge
